import Mathlib

/-!
Verification development for the Diagnostic_VM sales-follow-up application
(`src/app.py`). The Python functions relevant to the verified properties are
shallowly embedded below: pure functions become Lean functions, the external
AI call becomes an oracle `Nat → AIOutcome` indexed by the number of calls
performed so far, and the retry loop becomes fuel-based recursion (the fuel is
the number of loop iterations that remain, exactly `MAX_RETRIES` at entry).
Machine details that the claims do not touch (logging, Flask plumbing, pandas
internals) are not modelled; strings are Lean `String`s, `str.strip()` is
`aparar` below, `len` is `String.length`.
-/

namespace DiagnosticVM

/-! ### String primitives

Python's `str.strip()`, `str.lower()`, `str.split()` and the `in` substring
test are embedded at the character-list level (Lean's built-in `String.trim`,
`String.toLower` and `String.split` recurse on byte positions with
well-founded recursion, which blocks kernel evaluation).  Whitespace is
space/tab/CR/LF and lowercasing is A-Z, which covers every string this
application compares; the doc comment of each use notes this. -/

/-- Python `str.strip()`: drop leading and trailing whitespace. -/
def aparar (s : String) : String :=
  String.mk (((s.data.dropWhile Char.isWhitespace).reverse.dropWhile
    Char.isWhitespace).reverse)

/-- Python `str.lower()`, character-wise (ASCII letters). -/
def minusculas (s : String) : String :=
  String.mk (s.data.map Char.toLower)

/-- Splitting into whitespace-separated words, dropping empty pieces:
Python `str.split()` with no separator. -/
def palavrasAux : List Char → List Char → List String
  | [], acc => if acc = [] then [] else [String.mk acc.reverse]
  | c :: resto, acc =>
    if c.isWhitespace then
      if acc = [] then palavrasAux resto []
      else String.mk acc.reverse :: palavrasAux resto []
    else palavrasAux resto (c :: acc)

/-- Python `str.split()` with no argument. -/
def palavras (s : String) : List String :=
  palavrasAux s.data []

/-- One deal record as built by `processar` (src/app.py:1221-1240): the
`dados_negocio` dictionary.  The two histories are maps from the step index
(used at 1..5, the keys `D1..D5` / `F1..F5` of the Python dicts) to free
text. -/
structure DadosNegocio where
  negocio : String
  fase : String
  responsavel : String
  empresa : String
  historico_temperaturas : Nat → String
  historico_descricoes : Nat → String

/-- Embedding of `identificar_ultimo_followup` (src/app.py:257-282).  The
Python `for i in range(5, 0, -1)` loop with `break` is unrolled into the
if-chain that searches from step 5 down to step 1 for the first description
that is non-blank after stripping; the temperature result is
`.strip() or "Não informada"`. -/
def identificar_ultimo_followup (d : DadosNegocio) : Nat × Nat × String :=
  let resolve : Nat → Nat × String := fun i =>
    (i, (if aparar (d.historico_temperaturas i) = "" then "Não informada"
         else aparar (d.historico_temperaturas i)))
  let achado : Nat × String :=
    if aparar (d.historico_descricoes 5) ≠ "" then resolve 5
    else if aparar (d.historico_descricoes 4) ≠ "" then resolve 4
    else if aparar (d.historico_descricoes 3) ≠ "" then resolve 3
    else if aparar (d.historico_descricoes 2) ≠ "" then resolve 2
    else if aparar (d.historico_descricoes 1) ≠ "" then resolve 1
    else (0, "Não informada")
  let ultimo_follow := achado.1
  let temperatura_atual := achado.2
  let proximo_follow :=
    if ultimo_follow = 0 then 1
    else if ultimo_follow < 5 then ultimo_follow + 1
    else 5
  (ultimo_follow, proximo_follow, temperatura_atual)

/-- Step `i` of the record has a non-blank (after stripping) description. -/
def preenchido (d : DadosNegocio) (i : Nat) : Prop :=
  aparar (d.historico_descricoes i) ≠ ""

instance (d : DadosNegocio) (i : Nat) : Decidable (preenchido d i) := by
  unfold preenchido; infer_instance

/-- Written from the claim wording, to be compared with the source function:
the largest index `i` in 1..5 whose description is non-blank after trimming
whitespace, `0` when all five are blank. -/
def ultimoRespondidoSpec (d : DadosNegocio) : Nat :=
  (([1, 2, 3, 4, 5].filter (fun i => decide (preenchido d i))).foldr max 0)

/-- Written from the claim wording: the trimmed temperature at the resolved
last step, or the sentinel when that temperature is blank or no step
qualifies. -/
def temperaturaSpec (d : DadosNegocio) : String :=
  if ultimoRespondidoSpec d = 0 then "Não informada"
  else if aparar (d.historico_temperaturas (ultimoRespondidoSpec d)) = "" then "Não informada"
  else aparar (d.historico_temperaturas (ultimoRespondidoSpec d))

/-- Embedding of `gerar_hash_cache` (src/app.py:218-224), modelled up to the
final `hashlib.md5(...).hexdigest()`: the source hashes exactly the string
built here (`negocio|empresa|fase|D1|F1|...|D5|F5`, the `range(1, 6)` loop
unrolled), and MD5 is a fixed deterministic function of that string, so
fingerprint equality questions reduce to this string. -/
def gerar_hash_cache (d : DadosNegocio) : String :=
  d.negocio ++ "|" ++ d.empresa ++ "|" ++ d.fase
    ++ "|" ++ d.historico_descricoes 1 ++ "|" ++ d.historico_temperaturas 1
    ++ "|" ++ d.historico_descricoes 2 ++ "|" ++ d.historico_temperaturas 2
    ++ "|" ++ d.historico_descricoes 3 ++ "|" ++ d.historico_temperaturas 3
    ++ "|" ++ d.historico_descricoes 4 ++ "|" ++ d.historico_temperaturas 4
    ++ "|" ++ d.historico_descricoes 5 ++ "|" ++ d.historico_temperaturas 5

/-! ## Strategy Generator: `pedir_estrategia_ia` (src/app.py:285-412)

The external call `gemini_client.models.generate_content` is abstracted as an
oracle `Nat → AIOutcome` giving, for each successive invocation (counted from
0), either the returned `response.text` or the message of the exception it
raised.  `time.sleep` calls are recorded as a trace of durations, in order.
The recommendation cache `cache_analises` is an ordered association list; the
cache *lookup* at src/app.py:294-295 is commented out in the source and is
therefore absent here too, while the store on success (src/app.py:375) is
kept. -/

/-- Result of one external AI invocation: `response.text`, or the raised
exception's `str(e)`. -/
inductive AIOutcome where
  | ok : String → AIOutcome
  | err : String → AIOutcome

/-- Observable outcome of `pedir_estrategia_ia`: the returned string, the
trace of `time.sleep` durations, the number of `generate_content` calls
performed, and the final `cache_analises`. -/
structure PedirResult where
  resultado : String
  sleeps : List Nat
  chamadas : Nat
  cache : List (String × String)
deriving DecidableEq

/-- `lista1` is a prefix of `lista2` (helper for substring tests). -/
def listaPre : List Char → List Char → Bool
  | [], _ => true
  | _ :: _, [] => false
  | a :: as, b :: bs => a = b && listaPre as bs

/-- `agulha` occurs as a contiguous sublist of the second list. -/
def listaSub (agulha : List Char) : List Char → Bool
  | [] => listaPre agulha []
  | c :: resto => listaPre agulha (c :: resto) || listaSub agulha resto

/-- Python's `agulha in pajar` substring test. -/
def contemSub (pajar agulha : String) : Bool :=
  listaSub agulha.data pajar.data

/-- The "model decommissioned" classification of src/app.py:390, applied to
`error_msg = str(e).lower()`. -/
def ehDescontinuado (m : String) : Bool :=
  contemSub (minusculas m) "decommissioned"
    || contemSub (minusculas m) "no longer supported"
    || contemSub (minusculas m) "model_decommissioned"

/-- The "rate limited" classification of src/app.py:402, applied to
`error_msg = str(e).lower()`. -/
def ehRateLimit (m : String) : Bool :=
  contemSub (minusculas m) "rate" || contemSub (minusculas m) "limit"
    || contemSub (minusculas m) "too many"

/-- `modelos_validos` (src/app.py:339-344). -/
def modelos_validos : List String :=
  ["llama-3.3-70b-versatile", "llama-3.1-8b-instruct",
   "mixtral-8x7b-32768", "gemma2-9b-it"]

/-- Message of the `ValueError` raised at src/app.py:372 when the AI output is
empty or shorter than 200 characters. -/
def msgCurta : String :=
  "Resposta da IA muito curta ou vazia. Tentando novamente para garantir robustez."

/-- Fixed message returned at src/app.py:412 when the retry loop is
exhausted. -/
def msgEsgotado : String :=
  "Não foi possível gerar a análise para este item (limite de tentativas excedido)."

/-- Fixed message returned at src/app.py:400 when every model in the
preference list has been marked decommissioned. -/
def msgDescontinuado : String :=
  "Erro: Modelo de IA descontinuado. Por favor, atualize o GROQ_MODEL no arquivo .env para \x27llama-3.3-70b-versatile\x27"

/-- Python dict assignment `cache_analises[hash_cache] = resultado`:
overwrite in place, else append. -/
def insertAssoc (m : List (String × String)) (k v : String) :
    List (String × String) :=
  if m.any (fun p => p.1 = k) then
    m.map (fun p => if p.1 = k then (k, v) else p)
  else m ++ [(k, v)]

/-- The `for tentativa in range(MAX_RETRIES)` loop of src/app.py:349-412.
`fuel` is the number of iterations left (`MAX_RETRIES - tentativa`); both are
carried so the backoff exponent matches the source exactly.  Each iteration:
optional exponential backoff sleep (src/app.py:352-355), one oracle call, the
short-output check turning a too-short success into the `ValueError` of
src/app.py:372, then the except-block classification (src/app.py:386-409). -/
def pedirLoop (oracle : Nat → AIOutcome) (maxRetries retryDelay : Nat)
    (hashCache : String) :
    Nat → Nat → String → List Nat → Nat → List (String × String) → PedirResult
  | 0, _, _, sleeps, chamadas, cache => ⟨msgEsgotado, sleeps, chamadas, cache⟩
  | fuel + 1, tentativa, modelo_usar, sleeps, chamadas, cache =>
    let sleeps :=
      if 0 < tentativa then sleeps ++ [retryDelay * 2 ^ (tentativa - 1)]
      else sleeps
    let resposta : Except String String :=
      match oracle chamadas with
      | .ok resultado =>
        if resultado = "" ∨ resultado.length < 200 then .error msgCurta
        else .ok resultado
      | .err m => .error m
    let chamadas := chamadas + 1
    match resposta with
    | .ok resultado => ⟨resultado, sleeps, chamadas, insertAssoc cache hashCache resultado⟩
    | .error e =>
      if ehDescontinuado e then
        let idx_atual :=
          if modelo_usar ∈ modelos_validos then modelos_validos.indexOf modelo_usar
          else 0
        if idx_atual < modelos_validos.length - 1 then
          pedirLoop oracle maxRetries retryDelay hashCache fuel (tentativa + 1)
            (modelos_validos.getD (idx_atual + 1) modelo_usar) sleeps chamadas cache
        else ⟨msgDescontinuado, sleeps, chamadas, cache⟩
      else if ehRateLimit e then
        let sleeps :=
          if tentativa < maxRetries - 1 then sleeps ++ [retryDelay] else sleeps
        pedirLoop oracle maxRetries retryDelay hashCache fuel (tentativa + 1)
          modelo_usar sleeps chamadas cache
      else ⟨"Erro na análise desta linha: " ++ e, sleeps, chamadas, cache⟩

/-- Embedding of `pedir_estrategia_ia` (src/app.py:285-412).  `maxRetries` and
`retryDelay` are the env-configured `MAX_RETRIES` (default 3) and
`RETRY_DELAY` (default 1); `groqModel` is `GROQ_MODEL`.  The cache lookup at
src/app.py:294-295 is commented out in the source, so the incoming cache is
never read, only written on success. -/
def pedir_estrategia_ia (oracle : Nat → AIOutcome) (maxRetries retryDelay : Nat)
    (groqModel : String) (dados : DadosNegocio)
    (cache : List (String × String)) : PedirResult :=
  let hash_cache := gerar_hash_cache dados
  let modelo_usar :=
    if groqModel ∈ modelos_validos then groqModel else modelos_validos.getD 0 ""
  pedirLoop oracle maxRetries retryDelay hash_cache maxRetries 0 modelo_usar [] 0 cache

/-! ## Record building and row skipping in `processar` (src/app.py:1189-1248)

`processar` runs `normalizar_colunas_df` before iterating rows, and that
function creates every canonical column that is absent (src/app.py:585-599),
so when a row is turned into an item every canonical column exists and
`buscar_coluna` (src/app.py:1193-1219) resolves to `str(valor).strip()` of
the canonical cell (the dataframe was `fillna("")`-ed at src/app.py:1153, so
`pd.notna` holds).  A row is therefore modelled by its canonical cells. -/

/-- One spreadsheet row after `normalizar_colunas_df`: the canonical cells
(`Nome do negócio`, `Empresa`, `Fase`, `Responsavel`, and the five
description / temperature columns, indexed 1..5). -/
structure Linha where
  nomeNegocio : String
  empresa : String
  fase : String
  responsavel : String
  descricao : Nat → String
  temperatura : Nat → String

/-- Python's `s or padrao` for the strings produced by `buscar_coluna`. -/
def ouPadrao (s padrao : String) : String :=
  if s = "" then padrao else s

/-- The `item` dictionary built at src/app.py:1221-1240 for the row with
dataframe index `index` (0-based): each field is `buscar_coluna(...)`, i.e.
the stripped canonical cell, with the `or`-defaults of the source. -/
def montarItem (index : Nat) (l : Linha) : DadosNegocio :=
  { negocio := ouPadrao (aparar l.nomeNegocio) ("Negócio " ++ toString (index + 1))
    fase := ouPadrao (aparar l.fase) "Não informada"
    responsavel := ouPadrao (aparar l.responsavel) "Não informado"
    empresa := ouPadrao (aparar l.empresa) "Não informada"
    historico_temperaturas := fun i => aparar (l.temperatura i)
    historico_descricoes := fun i => aparar (l.descricao i) }

/-- The skip test of src/app.py:1242-1246: the row is dropped (`continue`)
when the built item's `negocio` is falsy or equal to its positional default
AND its `empresa` is falsy or equal to its default. -/
def pularLinha (index : Nat) (item : DadosNegocio) : Bool :=
  (decide (item.negocio = "") || decide (item.negocio = "Negócio " ++ toString (index + 1)))
    && (decide (item.empresa = "") || decide (item.empresa = "Não informada"))

/-- The row with dataframe index `index` contributes a record to
`itens_para_processar` (src/app.py:1248). -/
def linhaContribui (index : Nat) (l : Linha) : Bool :=
  !pularLinha index (montarItem index l)

/-! ## Column Normalizer (src/app.py:458-607) -/

/-- A pandas column label: a string header, or an integer position when the
file had no header row (`RangeIndex`). -/
inductive ColId where
  | str : String → ColId
  | num : Nat → ColId
deriving DecidableEq

/-- `str(nome)` on a column label. -/
def colIdStr : ColId → String
  | .str s => s
  | .num n => toString n

/-- A dataframe, reduced to what the normalizer observes: the ordered column
labels and the (rectangular) rows of string cells. -/
structure Df where
  cols : List ColId
  rows : List (List String)
deriving DecidableEq

/-- `unicodedata.normalize('NFD', ·)` followed by dropping `Mn` marks, as a
per-character map restricted to the Latin precomposed characters that occur in
this application's column names and variant lists; every other character is
left unchanged, exactly as NFD leaves undecomposable characters unchanged. -/
def mapaAcento (c : Char) : Char :=
  match c with
  | 'á' => 'a' | 'à' => 'a' | 'â' => 'a' | 'ã' => 'a' | 'ä' => 'a'
  | 'é' => 'e' | 'è' => 'e' | 'ê' => 'e' | 'ë' => 'e'
  | 'í' => 'i' | 'ì' => 'i' | 'î' => 'i' | 'ï' => 'i'
  | 'ó' => 'o' | 'ò' => 'o' | 'ô' => 'o' | 'õ' => 'o' | 'ö' => 'o'
  | 'ú' => 'u' | 'ù' => 'u' | 'û' => 'u' | 'ü' => 'u'
  | 'ç' => 'c' | 'ñ' => 'n'
  | 'Á' => 'A' | 'À' => 'A' | 'Â' => 'A' | 'Ã' => 'A' | 'Ä' => 'A'
  | 'É' => 'E' | 'È' => 'E' | 'Ê' => 'E' | 'Ë' => 'E'
  | 'Í' => 'I' | 'Ì' => 'I' | 'Î' => 'I' | 'Ï' => 'I'
  | 'Ó' => 'O' | 'Ò' => 'O' | 'Ô' => 'O' | 'Õ' => 'O' | 'Ö' => 'O'
  | 'Ú' => 'U' | 'Ù' => 'U' | 'Û' => 'U' | 'Ü' => 'U'
  | 'Ç' => 'C' | 'Ñ' => 'N'
  | c => c

/-- `' '.join(texto.split())`: collapse whitespace runs, dropping leading and
trailing whitespace. -/
def colapsaEspacos (s : String) : String :=
  String.intercalate " " (palavras s)

/-- Embedding of `normalizar_nome_coluna` (src/app.py:458-468): drop quote
characters, strip, remove diacritics, collapse whitespace, lowercase. -/
def normalizar_nome_coluna (nome : String) : String :=
  let semAspas := String.mk (nome.data.filter (fun c => !(c = '"' || c = '\x27')))
  let aparado := aparar semAspas
  let semAcentos := String.mk (aparado.data.map mapaAcento)
  minusculas (colapsaEspacos semAcentos)

/-- The stop-word set `palavras_ignorar` of src/app.py:475 (a Python set:
duplicates collapse). -/
def palavras_ignorar : List String :=
  ["do", "da", "de", "o", "a", "e", "up", "follow", "proposta"]

/-- `limpar_palavras` (src/app.py:477-479): tokenize and drop stop words.
The Python value is a set; it is kept as a deduplicated list so that
`List.length` and `List.inter` agree with set cardinality and
intersection. -/
def limpar_palavras (texto : String) : List String :=
  ((palavras texto).filter (fun p => p ∉ palavras_ignorar)).dedup

/-- Embedding of `encontrar_coluna_similar` (src/app.py:470-512); the only
part of the dataframe the source reads is `df.columns`, passed here as
`cols`.  First pass: exact match on normalized names; second pass: best
token-overlap score `|∩| / |wanted|` with threshold 0.6 and strict
improvement.  Scores are modelled as exact rationals (the source computes
Python floats; the quotients of the small integers involved are compared the
same way). -/
def encontrar_coluna_similar (cols : List ColId) (nome_procurado : String) : Option ColId :=
  let nome_normalizado := normalizar_nome_coluna nome_procurado
  let palavras_procuradas := limpar_palavras nome_normalizado
  match cols.find? (fun col => normalizar_nome_coluna (colIdStr col) = nome_normalizado) with
  | some col => some col
  | none =>
    let resultado := cols.foldl
      (fun (melhor : Option ColId × ℚ) col =>
        let col_normalizada := normalizar_nome_coluna (colIdStr col)
        let palavras_coluna := limpar_palavras col_normalizada
        if palavras_procuradas ≠ [] ∧ palavras_coluna ≠ [] then
          let palavras_comuns := palavras_procuradas.inter palavras_coluna
          let score : ℚ := (palavras_comuns.length : ℚ) / (palavras_procuradas.length : ℚ)
          if score > melhor.2 ∧ score ≥ 3 / 5 then (some col, score) else melhor
        else melhor)
      (none, 0)
    resultado.1

/-- The `colunas_esperadas` dictionary of src/app.py:523-538: canonical name
paired with its variant list, in insertion order. -/
def colunas_esperadas_variacoes : List (String × List String) :=
  [("Nome do negócio", ["nome do negocio", "nome do negócio", "negocio", "negócio"]),
   ("Empresa", ["empresa"]),
   ("Fase", ["fase"]),
   ("Responsavel", ["responsavel", "responsável", "vendedor", "usuario", "usuário", "usuario", "usuário"]),
   ("Temperatura da Proposta Follow 1", ["temperatura da proposta follow 1", "temperatura follow 1", "temperatura 1"]),
   ("Descrição Follow up 1", ["descrição follow up 1", "descrição do follow up 1", "descricao follow up 1", "descricao do follow up 1", "descrição do follow up 1", "descricao do follow up 1", "follow up 1"]),
   ("Temperatura da Proposta Follow 2", ["temperatura da proposta follow 2", "temperatura follow 2", "temperatura 2"]),
   ("Descrição Follow up 2", ["descrição follow up 2", "descrição do follow up 2", "descricao follow up 2", "descricao do follow up 2", "follow up 2"]),
   ("Temperatura da Proposta Follow 3", ["temperatura da proposta follow 3", "temperatura follow 3", "temperatura 3"]),
   ("Descrição Follow up 3", ["descrição follow up 3", "descrição do follow up 3", "descricao follow up 3", "descricao do follow up 3", "follow up 3"]),
   ("Temperatura da Proposta Follow 4", ["temperatura da proposta follow 4", "temperatura follow 4", "temperatura 4"]),
   ("Descrição Follow up 4", ["descrição follow up 4", "descrição do follow up 4", "descricao follow up 4", "descricao do follow up 4", "follow up 4"]),
   ("Temperatura da Proposta Follow 5", ["temperatura da proposta follow 5", "temperatura follow 5", "temperatura 5"]),
   ("Descrição Follow up 5", ["descrição follow up 5", "descrição do follow up 5", "descricao follow up 5", "descricao do follow up 5", "follow up 5"])]

/-- The canonical schema, in the order of the `colunas_esperadas` list at
src/app.py:586-593 (also the key order of the dictionary above). -/
def colunas_esperadas_lista : List String :=
  ["Nome do negócio", "Empresa", "Fase", "Responsavel",
   "Temperatura da Proposta Follow 1", "Descrição Follow up 1",
   "Temperatura da Proposta Follow 2", "Descrição Follow up 2",
   "Temperatura da Proposta Follow 3", "Descrição Follow up 3",
   "Temperatura da Proposta Follow 4", "Descrição Follow up 4",
   "Temperatura da Proposta Follow 5", "Descrição Follow up 5"]

/-- Python dict assignment for the `mapeamento` dict (keys are column
labels): overwrite in place, else append. -/
def insertMapa (m : List (ColId × String)) (k : ColId) (v : String) :
    List (ColId × String) :=
  if m.any (fun p => p.1 = k) then
    m.map (fun p => if p.1 = k then (k, v) else p)
  else m ++ [(k, v)]

/-- The `mapeamento`-building loop of src/app.py:541-551: for each expected
column, try the canonical name then each variant until a similar column is
found.  Depends only on the dataframe's column labels. -/
def construirMapeamento (cols : List ColId) : List (ColId × String) :=
  colunas_esperadas_variacoes.foldl
    (fun m par =>
      match encontrar_coluna_similar cols par.1 with
      | some col => insertMapa m col par.1
      | none =>
        match par.2.findSome? (fun variacao => encontrar_coluna_similar cols variacao) with
        | some col => insertMapa m col par.1
        | none => m)
    []

/-- `dict.get` on the `mapeamento` association list. -/
def buscaMapa (m : List (ColId × String)) (k : ColId) : Option String :=
  (m.find? (fun p => p.1 = k)).map (fun p => p.2)

/-- The positional fallback table of src/app.py:563-577. -/
def mapeamento_posicional : List (Nat × String) :=
  [(0, "Empresa"), (2, "Fase"), (3, "Responsavel"),
   (7, "Descrição Follow up 1"), (8, "Descrição Follow up 2"),
   (9, "Descrição Follow up 3"), (10, "Descrição Follow up 4"),
   (11, "Descrição Follow up 5"),
   (12, "Temperatura da Proposta Follow 1"),
   (13, "Temperatura da Proposta Follow 2"),
   (14, "Temperatura da Proposta Follow 3"),
   (15, "Temperatura da Proposta Follow 4"),
   (16, "Temperatura da Proposta Follow 5")]

/-- The rename step of src/app.py:541-558: build `mapeamento` and, when it is
non-empty, `df.rename(columns=mapeamento)`. -/
def renomearColunas (df : Df) : Df :=
  let mapeamento := construirMapeamento df.cols
  if mapeamento ≠ [] then
    { df with cols := df.cols.map (fun c =>
        match buscaMapa mapeamento c with
        | some novo => ColId.str novo
        | none => c) }
  else df

/-- The headerless-CSV positional step of src/app.py:560-583: when the column
labels are exactly the `RangeIndex` integers `0..n-1`, rename each listed
position to its canonical name. -/
def aplicarPosicional (df : Df) : Df :=
  if df.cols = (List.range df.cols.length).map ColId.num then
    mapeamento_posicional.foldl
      (fun d par =>
        if par.1 < d.cols.length then
          { d with cols := d.cols.map (fun c =>
              if c = ColId.num par.1 then ColId.str par.2 else c) }
        else d)
      df
  else df

/-- The missing-column step of src/app.py:585-602: create every canonical
column that is absent, with empty cells (`df[coluna] = ''`). -/
def criar_colunas_faltantes (df : Df) : Df :=
  colunas_esperadas_lista.foldl
    (fun d coluna =>
      if ColId.str coluna ∈ d.cols then d
      else { cols := d.cols ++ [ColId.str coluna],
             rows := d.rows.map (fun linha => linha ++ [""]) })
    df

/-- Embedding of `normalizar_colunas_df` (src/app.py:514-607): rename the
fuzzily matched columns to their canonical names, apply the positional map
when the labels are the bare `RangeIndex` integers, then create every missing
canonical column with empty cells. -/
def normalizar_colunas_df (df : Df) : Df :=
  criar_colunas_faltantes (aplicarPosicional (renomearColunas df))

/-- The canonical column labels as a dataframe column list. -/
def colunasCanonicas : List ColId :=
  colunas_esperadas_lista.map ColId.str

/-- The rename map that `construirMapeamento` produces on an
already-canonical table: every canonical header mapped to itself. -/
def mapaIdentidade : List (ColId × String) :=
  colunas_esperadas_lista.map (fun n => (ColId.str n, n))

/-! ### Concrete test data used by the closed theorems below -/

/-- A sample deal record. -/
def dadosExemplo : DadosNegocio :=
  { negocio := "Projeto Alfa", fase := "Proposta", responsavel := "Ana",
    empresa := "Acme", historico_temperaturas := fun _ => "Morno",
    historico_descricoes := fun i => if i = 1 then "Primeiro contato" else "" }

/-- A record whose descriptions are filled exactly at steps 1..3. -/
def dadosGapFree : DadosNegocio :=
  { negocio := "N", fase := "F", responsavel := "R", empresa := "E",
    historico_temperaturas := fun _ => "Quente",
    historico_descricoes := fun i => if i = 1 ∨ i = 2 ∨ i = 3 then "contato" else "" }

/-- A record used for the fingerprint tests. -/
def dadosA : DadosNegocio :=
  { negocio := "Neg", fase := "FaseX", responsavel := "Resp1", empresa := "Emp",
    historico_temperaturas := fun _ => "Quente",
    historico_descricoes := fun _ => "desc" }

/-- `dadosA` with only the account owner changed (a field the fingerprint
must ignore). -/
def dadosB : DadosNegocio :=
  { negocio := "Neg", fase := "FaseX", responsavel := "Resp2", empresa := "Emp",
    historico_temperaturas := fun _ => "Quente",
    historico_descricoes := fun _ => "desc" }

/-- A 200-character AI answer (the minimum length the generator trusts). -/
def textoLongo : String := String.mk (List.replicate 200 'a')

/-- A different 200-character AI answer. -/
def textoLongo2 : String := String.mk (List.replicate 200 'b')

/-- Oracle whose first call returns a too-short output and whose later calls
would return a trusted one. -/
def oracleCurto : Nat → AIOutcome :=
  fun n => if n = 0 then .ok "ok" else .ok textoLongo

/-- Oracle that fails with a rate-limit error on the first two calls and
succeeds on the third. -/
def oracleRate3 : Nat → AIOutcome :=
  fun n => if n < 2 then .err "rate limit exceeded" else .ok textoLongo

/-- Oracle that always fails with a generic error. -/
def oracleGenerico : Nat → AIOutcome := fun _ => .err "boom"

/-- Oracle that always fails with a model-decommissioned error. -/
def oracleDescontinuado : Nat → AIOutcome := fun _ => .err "model_decommissioned"

/-- Oracle that always succeeds with `textoLongo`. -/
def oracleOk1 : Nat → AIOutcome := fun _ => .ok textoLongo

/-- Oracle that always succeeds with `textoLongo2`. -/
def oracleOk2 : Nat → AIOutcome := fun _ => .ok textoLongo2

/-- A row whose identifying fields are blank but whose first follow-up
description is not. -/
def linhaSemNome : Linha :=
  { nomeNegocio := "", empresa := "", fase := "Proposta", responsavel := "Ana",
    descricao := fun i => if i = 1 then "Cliente respondeu" else "",
    temperatura := fun _ => "" }

/-! ## Theorems -/

/-- C1: on a record whose five description slots are filled in strictly
increasing order with no gaps (`k` filled slots, i.e. slot `i` is non-blank
exactly when `i ≤ k`), `identificar_ultimo_followup` returns
`last_step_answered = k` — the highest filled index, 0 when none — and
`next_step = min (k+1) 5`, which is `last_step_answered + 1` clamped to
`[1, 5]`: 1 when `k = 0` and 5 when `k = 5`; the function is total, so it
never raises, including with all five slots filled. -/
theorem c1_resolver_gapfree (d : DadosNegocio) (k : Nat) (hk : k ≤ 5)
    (h : ∀ i, 1 ≤ i → i ≤ 5 → (preenchido d i ↔ i ≤ k)) :
    (identificar_ultimo_followup d).1 = k ∧
    (identificar_ultimo_followup d).2.1 = min (k + 1) 5 ∧
    1 ≤ (identificar_ultimo_followup d).2.1 ∧
    (identificar_ultimo_followup d).2.1 ≤ 5 ∧
    (k = 0 → (identificar_ultimo_followup d).2.1 = 1) ∧
    (k = 5 → (identificar_ultimo_followup d).2.1 = 5) := by
  have h1 := h 1 (by norm_num) (by norm_num)
  have h2 := h 2 (by norm_num) (by norm_num)
  have h3 := h 3 (by norm_num) (by norm_num)
  have h4 := h 4 (by norm_num) (by norm_num)
  have h5 := h 5 (by norm_num) (by norm_num)
  interval_cases k <;>
    simp_all +decide [identificar_ultimo_followup, preenchido]

/-- C1 witness: the gap-free record filled at steps 1..3 resolves to
`last_step_answered = 3`, `next_step = 4`. -/
theorem c1_resolver_gapfree_witness :
    (identificar_ultimo_followup dadosGapFree).1 = 3 ∧
    (identificar_ultimo_followup dadosGapFree).2.1 = 4 := by
  have h := c1_resolver_gapfree dadosGapFree 3 (by norm_num)
    (fun i hi1 hi5 => by interval_cases i <;> decide)
  refine ⟨h.1, ?_⟩
  rw [h.2.1]
  norm_num

/-- C10: for every record, `identificar_ultimo_followup` returns as
`last_step_answered` the largest index in 1..5 whose description is non-blank
after stripping (gaps in lower slots are ignored; 0 when all are blank), and
as current temperature the stripped temperature at that index, with the
sentinel "Não informada" when that temperature is blank or no index
qualifies; this is exactly the pair `(ultimoRespondidoSpec, temperaturaSpec)`
computed from the claim's wording, which reads no temperature at any other
step. -/
theorem c10_resolver_geral (d : DadosNegocio) :
    (identificar_ultimo_followup d).1 = ultimoRespondidoSpec d ∧
    (identificar_ultimo_followup d).2.2 = temperaturaSpec d := by
  by_cases h5 : aparar (d.historico_descricoes 5) = "" <;>
  by_cases h4 : aparar (d.historico_descricoes 4) = "" <;>
  by_cases h3 : aparar (d.historico_descricoes 3) = "" <;>
  by_cases h2 : aparar (d.historico_descricoes 2) = "" <;>
  by_cases h1 : aparar (d.historico_descricoes 1) = "" <;>
  simp_all +decide [identificar_ultimo_followup, ultimoRespondidoSpec,
    temperaturaSpec, preenchido]

/-- C8: the fingerprint input is a function of exactly the record's name,
company, phase, five descriptions and five temperatures: two records that
agree on all of these (the owner may differ) fingerprint identically, and
changing any single history field — any one description or any one
temperature — changes the fingerprint input string (MD5 is applied to exactly
this string in the source). -/
theorem c8_fingerprint (d d' : DadosNegocio)
    (hn : d.negocio = d'.negocio) (he : d.empresa = d'.empresa)
    (hf : d.fase = d'.fase)
    (hd : ∀ i, 1 ≤ i → i ≤ 5 → d.historico_descricoes i = d'.historico_descricoes i)
    (ht : ∀ i, 1 ≤ i → i ≤ 5 → d.historico_temperaturas i = d'.historico_temperaturas i) :
    gerar_hash_cache d = gerar_hash_cache d'
    ∧ (∀ i v, 1 ≤ i → i ≤ 5 → v ≠ d.historico_descricoes i →
        gerar_hash_cache { d with historico_descricoes :=
          fun j => if j = i then v else d.historico_descricoes j } ≠ gerar_hash_cache d)
    ∧ (∀ i v, 1 ≤ i → i ≤ 5 → v ≠ d.historico_temperaturas i →
        gerar_hash_cache { d with historico_temperaturas :=
          fun j => if j = i then v else d.historico_temperaturas j } ≠ gerar_hash_cache d) := by
  have g1 := hd 1 (by norm_num) (by norm_num)
  have g2 := hd 2 (by norm_num) (by norm_num)
  have g3 := hd 3 (by norm_num) (by norm_num)
  have g4 := hd 4 (by norm_num) (by norm_num)
  have g5 := hd 5 (by norm_num) (by norm_num)
  have t1 := ht 1 (by norm_num) (by norm_num)
  have t2 := ht 2 (by norm_num) (by norm_num)
  have t3 := ht 3 (by norm_num) (by norm_num)
  have t4 := ht 4 (by norm_num) (by norm_num)
  have t5 := ht 5 (by norm_num) (by norm_num)
  refine ⟨?_, ?_, ?_⟩
  · simp only [gerar_hash_cache, hn, he, hf, g1, g2, g3, g4, g5, t1, t2, t3, t4, t5]
  · intro i v hi1 hi5 hv heq
    interval_cases i <;>
    · simp only [gerar_hash_cache] at heq
      norm_num at heq
      have hdata := congrArg String.data heq
      simp only [String.data_append, List.append_assoc] at hdata
      repeat replace hdata := List.append_cancel_left hdata
      exact hv (String.ext (List.append_cancel_right hdata))
  · intro i v hi1 hi5 hv heq
    interval_cases i <;>
    · simp only [gerar_hash_cache] at heq
      norm_num at heq
      have hdata := congrArg String.data heq
      simp only [String.data_append, List.append_assoc] at hdata
      repeat replace hdata := List.append_cancel_left hdata
      refine hv (String.ext ?_)
      first
        | exact List.append_cancel_right hdata
        | exact hdata

/-- C8 witness: two concrete records differing only in the owner fingerprint
identically, and changing description 2 changes the fingerprint. -/
theorem c8_fingerprint_witness :
    gerar_hash_cache dadosA = gerar_hash_cache dadosB ∧
    gerar_hash_cache { dadosA with historico_descricoes :=
      fun j => if j = 2 then "outra" else dadosA.historico_descricoes j }
      ≠ gerar_hash_cache dadosA := by
  have h := c8_fingerprint dadosA dadosB rfl rfl rfl
    (fun i hi1 hi5 => rfl) (fun i hi1 hi5 => rfl)
  exact ⟨h.1, h.2.1 2 "outra" (by norm_num) (by norm_num) (by decide)⟩

/-- When every listed canonical column is already present, the
missing-column step leaves the dataframe untouched. -/
theorem criar_faltantes_todas_presentes (df : Df) (nomes : List String)
    (h : ∀ n ∈ nomes, ColId.str n ∈ df.cols) :
    nomes.foldl
      (fun d coluna =>
        if ColId.str coluna ∈ d.cols then d
        else { cols := d.cols ++ [ColId.str coluna],
               rows := d.rows.map (fun linha => linha ++ [""]) })
      df = df := by
  induction nomes with
  | nil => rfl
  | cons n ns ih =>
    rw [List.foldl_cons, if_pos (h n (List.mem_cons_self n ns))]
    exact ih (fun x hx => h x (List.mem_cons_of_mem n hx))

/-- Unfolding equation for `renomearColunas` on a literal dataframe. -/
theorem renomearColunas_def (cols : List ColId) (rs : List (List String)) :
    renomearColunas ⟨cols, rs⟩ =
      (if construirMapeamento cols ≠ [] then
        ({ cols := cols.map (fun c =>
            match buscaMapa (construirMapeamento cols) c with
            | some novo => ColId.str novo
            | none => c),
           rows := rs } : Df)
      else ⟨cols, rs⟩) := rfl

/-- Unfolding equation for `aplicarPosicional` on a literal dataframe. -/
theorem aplicarPosicional_def (cols : List ColId) (rs : List (List String)) :
    aplicarPosicional ⟨cols, rs⟩ =
      (if cols = (List.range cols.length).map ColId.num then
        mapeamento_posicional.foldl
          (fun d par =>
            if par.1 < d.cols.length then
              { d with cols := d.cols.map (fun c =>
                  if c = ColId.num par.1 then ColId.str par.2 else c) }
            else d)
          ⟨cols, rs⟩
      else ⟨cols, rs⟩) := rfl

/-- C9: the Column Normalizer is the identity on a table whose column
headers are already exactly the canonical schema names (every fuzzy probe
exact-matches its own header, the rename map is the identity, the
positional branch does not fire, and no column is missing), hence applying
it twice yields the same table as applying it once. -/
theorem c9_normalizador_idempotente (rows : List (List String)) :
    normalizar_colunas_df ⟨colunasCanonicas, rows⟩ = ⟨colunasCanonicas, rows⟩ ∧
    normalizar_colunas_df (normalizar_colunas_df ⟨colunasCanonicas, rows⟩)
      = normalizar_colunas_df ⟨colunasCanonicas, rows⟩ := by
  have hmapa : construirMapeamento colunasCanonicas = mapaIdentidade := by decide
  have hren : renomearColunas ⟨colunasCanonicas, rows⟩ = ⟨colunasCanonicas, rows⟩ := by
    rw [renomearColunas_def, hmapa, if_pos (by decide : ¬mapaIdentidade = [])]
    congr 1
  have hpos : aplicarPosicional ⟨colunasCanonicas, rows⟩ = ⟨colunasCanonicas, rows⟩ := by
    rw [aplicarPosicional_def, if_neg
      (by decide : ¬(colunasCanonicas = (List.range colunasCanonicas.length).map ColId.num))]
  have hfal : criar_colunas_faltantes ⟨colunasCanonicas, rows⟩ = ⟨colunasCanonicas, rows⟩ := by
    have hmem : ∀ n ∈ colunas_esperadas_lista, ColId.str n ∈ colunasCanonicas := by decide
    unfold criar_colunas_faltantes
    exact criar_faltantes_todas_presentes _ _ hmem
  have hid : normalizar_colunas_df ⟨colunasCanonicas, rows⟩ = ⟨colunasCanonicas, rows⟩ := by
    rw [normalizar_colunas_df, hren, hpos, hfal]
  refine ⟨hid, ?_⟩
  rw [hid]
  exact hid

/-- C2: the claim says a too-short AI success is treated as a failure and
retried; the code instead classifies the short-output `ValueError` message
(which contains none of the decommissioned / rate-limit patterns) as a
generic error and returns `"Erro na análise desta linha: " ++ msgCurta` at
once — one external call, no sleep, no retry — contradicting the source's own
comment "força um erro para tentar de novo" and the message's own "Tentando
novamente".  Here the first call returns the 2-character output `"ok"` and a
retry would have received `textoLongo`. -/
theorem c2_saida_curta_nao_tenta_de_novo :
    pedir_estrategia_ia oracleCurto 3 1 "llama-3.3-70b-versatile" dadosExemplo [] =
      ⟨"Erro na análise desta linha: " ++ msgCurta, [], 1, []⟩ := by decide

/-- C3 counterexample: with every call failing as model-decommissioned and
the full four-model preference list ahead, the claim predicts no delays and
no consumed attempts (ending either in success or in the fixed
decommissioned message); the run actually performs the two backoff sleeps
`[1, 2]`, consumes all 3 attempts, and ends with the retries-exhausted
message even though a fourth model was still available. -/
theorem c3_counterexemplo_fallback_consome_tentativa :
    pedir_estrategia_ia oracleDescontinuado 3 1 "llama-3.3-70b-versatile" dadosExemplo [] =
      ⟨msgEsgotado, [1, 2], 3, []⟩ ∧
    ([1, 2] : List Nat) ≠ [] ∧ msgEsgotado ≠ msgDescontinuado := by decide

/-- C3 amended: on a model-decommissioned error the generator advances its
model variable to the next entry of the preference list and continues the
retry loop — consuming one attempt (the fuel drops) and entering the next
iteration with `tentativa + 1 ≥ 1`, which sleeps the exponential backoff
delay first; when the current model is the last of the list it returns the
fixed explanatory message instead of raising. -/
theorem c3_fallback_modelo :
    (∀ (oracle : Nat → AIOutcome) (m : String) (fuel tentativa : Nat) (modelo : String)
       (sleeps : List Nat) (chamadas : Nat) (cache : List (String × String))
       (maxRetries retryDelay : Nat) (hashCache : String),
       ehDescontinuado m = true → oracle chamadas = .err m →
       modelo ∈ modelos_validos →
       modelos_validos.indexOf modelo < modelos_validos.length - 1 →
       pedirLoop oracle maxRetries retryDelay hashCache (fuel + 1) tentativa modelo sleeps chamadas cache =
         pedirLoop oracle maxRetries retryDelay hashCache fuel (tentativa + 1)
           (modelos_validos.getD (modelos_validos.indexOf modelo + 1) modelo)
           (if 0 < tentativa then sleeps ++ [retryDelay * 2 ^ (tentativa - 1)] else sleeps)
           (chamadas + 1) cache)
    ∧ (∀ (oracle : Nat → AIOutcome) (m : String) (fuel tentativa : Nat)
       (sleeps : List Nat) (chamadas : Nat) (cache : List (String × String))
       (maxRetries retryDelay : Nat) (hashCache : String),
       ehDescontinuado m = true → oracle chamadas = .err m →
       pedirLoop oracle maxRetries retryDelay hashCache (fuel + 1) tentativa "gemma2-9b-it" sleeps chamadas cache =
         ⟨msgDescontinuado,
          if 0 < tentativa then sleeps ++ [retryDelay * 2 ^ (tentativa - 1)] else sleeps,
          chamadas + 1, cache⟩) := by
  constructor
  · intro oracle m fuel tentativa modelo sleeps chamadas cache maxRetries retryDelay hashCache hdm ho hmem hidx
    simp [pedirLoop, ho, hdm, hmem, hidx]
  · intro oracle m fuel tentativa sleeps chamadas cache maxRetries retryDelay hashCache hdm ho
    simp +decide [pedirLoop, ho, hdm]

/-- C3 witness: one decommissioned failure while already on the last model
returns the fixed message after a single call. -/
theorem c3_fallback_modelo_witness :
    pedirLoop oracleDescontinuado 3 1 "h" 1 0 "gemma2-9b-it" [] 0 [] =
      ⟨msgDescontinuado, [], 1, []⟩ := by
  have h := c3_fallback_modelo.2 oracleDescontinuado "model_decommissioned"
    0 0 [] 0 [] 3 1 "h" (by decide) rfl
  simpa using h

set_option maxRecDepth 10000 in
/-- C4 counterexample: two rate-limit failures then a trusted success return
the third call's output, but the sleep trace is `[1, 1, 1, 2]` — four delays
(the fixed `time.sleep(RETRY_DELAY)` of the rate branch plus the exponential
backoff at the head of each retry iteration), not the claimed exactly two. -/
theorem c4_counterexemplo_quatro_esperas :
    (pedir_estrategia_ia oracleRate3 3 1 "llama-3.3-70b-versatile" dadosExemplo []).sleeps
        = [1, 1, 1, 2] ∧
    (pedir_estrategia_ia oracleRate3 3 1 "llama-3.3-70b-versatile" dadosExemplo []).resultado
        = textoLongo ∧
    ([1, 1, 1, 2] : List Nat).length ≠ 2 := by decide

/-- C4 amended: with rate-limit failures on the first two attempts and a
trusted success on the third, the result is exactly the third call's output
and the sleep trace is `[b, b, b, 2b]` (`b` the base delay): a fixed sleep of
`b` after each rate-limited failure plus the exponential backoff
`b × 2^(attempt-1)` at the start of attempts 2 and 3. -/
theorem c4_rate_limit_tres_tentativas (oracle : Nat → AIOutcome) (m1 m2 t : String) (b : Nat)
    (h0 : oracle 0 = .err m1) (h1 : oracle 1 = .err m2) (h2 : oracle 2 = .ok t)
    (hm1d : ehDescontinuado m1 = false) (hm1r : ehRateLimit m1 = true)
    (hm2d : ehDescontinuado m2 = false) (hm2r : ehRateLimit m2 = true)
    (ht : 200 ≤ t.length) (g : String) (d : DadosNegocio) (cache : List (String × String)) :
    pedir_estrategia_ia oracle 3 b g d cache =
      ⟨t, [b, b, b, b * 2], 3, insertAssoc cache (gerar_hash_cache d) t⟩ := by
  have ht' : ¬(t = "" ∨ t.length < 200) := by
    rintro (rfl | hlt)
    · simp at ht
    · omega
  simp [pedir_estrategia_ia, pedirLoop, h0, h1, h2, hm1d, hm1r, hm2d, hm2r, ht', pow_succ]

set_option maxRecDepth 10000 in
/-- C4 witness: the amended statement at the concrete rate-limited oracle
with base delay 1. -/
theorem c4_rate_limit_tres_tentativas_witness :
    pedir_estrategia_ia oracleRate3 3 1 "llama-3.3-70b-versatile" dadosExemplo [] =
      ⟨textoLongo, [1, 1, 1, 2], 3, insertAssoc [] (gerar_hash_cache dadosExemplo) textoLongo⟩ := by
  have h := c4_rate_limit_tres_tentativas oracleRate3 "rate limit exceeded"
    "rate limit exceeded" textoLongo 1 rfl rfl rfl (by decide) (by decide)
    (by decide) (by decide) (by decide) "llama-3.3-70b-versatile" dadosExemplo []
  simpa using h

/-- C5 counterexample: a generic error ends the generator immediately on the
first attempt with the raw error text, not with the fixed
retries-exhausted "analysis unavailable" message after 3 attempts. -/
theorem c5_counterexemplo_erro_generico_imediato :
    pedir_estrategia_ia oracleGenerico 3 1 "llama-3.3-70b-versatile" dadosExemplo [] =
      ⟨"Erro na análise desta linha: boom", [], 1, []⟩ ∧
    "Erro na análise desta linha: boom" ≠ msgEsgotado ∧ (1 : Nat) ≠ 3 := by decide

/-- C5 amended: on the first error that matches neither the decommissioned
nor the rate-limit patterns, the generator terminates at once — one external
call, no sleeps — returning `"Erro na análise desta linha: "` followed by the
raw error text; it never raises (the embedding is a total function), and the
fixed "analysis unavailable" message is reserved for exhaustion of the loop
by the other error classes. -/
theorem c5_erro_generico_retorna_imediatamente (m : String) (oracle : Nat → AIOutcome)
    (hm1 : ehDescontinuado m = false) (hm2 : ehRateLimit m = false)
    (ho : oracle 0 = .err m) (maxRetries retryDelay : Nat) (hr : 1 ≤ maxRetries)
    (g : String) (d : DadosNegocio) (cache : List (String × String)) :
    pedir_estrategia_ia oracle maxRetries retryDelay g d cache =
      ⟨"Erro na análise desta linha: " ++ m, [], 1, cache⟩ := by
  obtain ⟨k, rfl⟩ : ∃ k, maxRetries = k + 1 := ⟨maxRetries - 1, by omega⟩
  simp [pedir_estrategia_ia, pedirLoop, ho, hm1, hm2]

/-- C5 witness: the amended statement at the concrete always-failing
oracle. -/
theorem c5_erro_generico_retorna_imediatamente_witness :
    pedir_estrategia_ia oracleGenerico 5 2 "llama-3.3-70b-versatile" dadosExemplo [] =
      ⟨"Erro na análise desta linha: boom", [], 1, []⟩ :=
  c5_erro_generico_retorna_imediatamente "boom" oracleGenerico (by decide) (by decide)
    rfl 5 2 (by norm_num) "llama-3.3-70b-versatile" dadosExemplo []

set_option maxRecDepth 10000 in
/-- C7 counterexample: the first run stores its result under the record's
fingerprint, but a second run for the same record — with that cache in
hand — still performs an external AI call and returns the new oracle output
rather than the memoized recommendation (the cache lookup is commented out
at src/app.py:294-295). -/
theorem c7_counterexemplo_cache_nao_lido :
    (pedir_estrategia_ia oracleOk1 3 1 "llama-3.3-70b-versatile" dadosExemplo []).cache
        = [(gerar_hash_cache dadosExemplo, textoLongo)] ∧
    (pedir_estrategia_ia oracleOk2 3 1 "llama-3.3-70b-versatile" dadosExemplo
        (pedir_estrategia_ia oracleOk1 3 1 "llama-3.3-70b-versatile" dadosExemplo []).cache).chamadas
        = 1 ∧
    (pedir_estrategia_ia oracleOk2 3 1 "llama-3.3-70b-versatile" dadosExemplo
        (pedir_estrategia_ia oracleOk1 3 1 "llama-3.3-70b-versatile" dadosExemplo []).cache).resultado
        = textoLongo2 ∧ textoLongo2 ≠ textoLongo := by decide

/-- C7 amended: a successful run memoizes its result under the record's
fingerprint (the store of src/app.py:375), but every run issues exactly one
external call on first-attempt success regardless of the incoming cache —
in particular even when the cache already holds that fingerprint — because
the lookup is disabled. -/
theorem c7_memoiza_mas_nao_consulta (oracle : Nat → AIOutcome) (t : String)
    (h0 : oracle 0 = .ok t) (ht : 200 ≤ t.length)
    (maxRetries retryDelay : Nat) (hr : 1 ≤ maxRetries) (g : String)
    (d : DadosNegocio) (cache : List (String × String)) :
    pedir_estrategia_ia oracle maxRetries retryDelay g d cache =
      ⟨t, [], 1, insertAssoc cache (gerar_hash_cache d) t⟩ := by
  obtain ⟨k, rfl⟩ : ∃ k, maxRetries = k + 1 := ⟨maxRetries - 1, by omega⟩
  have ht' : ¬(t = "" ∨ t.length < 200) := by
    rintro (rfl | hlt)
    · simp at ht
    · omega
  simp [pedir_estrategia_ia, pedirLoop, h0, ht']

set_option maxRecDepth 10000 in
/-- C7 witness: the amended statement with a cache that already holds the
record's fingerprint — the call count is still 1. -/
theorem c7_memoiza_mas_nao_consulta_witness :
    pedir_estrategia_ia oracleOk1 3 1 "llama-3.3-70b-versatile" dadosExemplo
        [(gerar_hash_cache dadosExemplo, "memo")] =
      ⟨textoLongo, [], 1,
       insertAssoc [(gerar_hash_cache dadosExemplo, "memo")]
         (gerar_hash_cache dadosExemplo) textoLongo⟩ :=
  c7_memoiza_mas_nao_consulta oracleOk1 textoLongo rfl (by decide) 3 1
    (by norm_num) "llama-3.3-70b-versatile" dadosExemplo
    [(gerar_hash_cache dadosExemplo, "memo")]

/-- C6 counterexample: a row with blank business-name and company cells but a
non-blank first description is skipped by the builder, though the claim says
it must still produce a record. -/
theorem c6_counterexemplo_descricao_nao_salva_linha :
    aparar (linhaSemNome.descricao 1) ≠ "" ∧ linhaContribui 0 linhaSemNome = false := by decide

/-- C6 amended: a row is skipped exactly when its stripped business-name cell
is blank (or literally equal to the positional placeholder
`Negócio {index+1}`) and its stripped company cell is blank (or literally
`Não informada`) — the five description cells play no part in the
decision. -/
theorem c6_pulo_depende_so_de_nome_e_empresa (index : Nat) (l : Linha) :
    linhaContribui index l = false ↔
      ((aparar l.nomeNegocio = "" ∨ aparar l.nomeNegocio = "Negócio " ++ toString (index + 1))
        ∧ (aparar l.empresa = "" ∨ aparar l.empresa = "Não informada")) := by
  by_cases h1 : aparar l.nomeNegocio = "" <;>
  by_cases h2 : aparar l.empresa = "" <;>
  simp_all [linhaContribui, pularLinha, montarItem, ouPadrao]

end DiagnosticVM
